import Mathlib

/-!
Verification of the article resolution and content-extraction core of the
agent_smith repository, as implemented in
src/bot_agent_smith/src/skills/web_search/google_decoder.py and
src/bot_agent_smith/src/skills/web_search/google_news_fetcher.py.

External collaborators (the HTTP client, feedparser, urllib's urlparse and
unquote, html.unescape, selectolax's css_first, trafilatura, newspaper and the
Playwright browser runtime) are modelled as oracle functions gathered in an
`Env` record; all control flow, thresholds, fallbacks and string processing of
the repository's own code are translated directly.  Python exceptions raised
by an external call are modelled as `none` (or `PyRes.raised` where the code
distinguishes a raised call from a call returning `None`).
-/

set_option linter.unusedVariables false

namespace AgentSmith

/-- Result of Python's `urlparse` on a URL string (stdlib external): the
attributes the decoder reads, namely `hostname` and `path`. -/
structure ParsedUrl where
  hostname : Option String
  path : String
deriving Repr, DecidableEq

/-- Outcome of a Python call that can either raise or return a value; used
where the code distinguishes an exception from a `None` return. -/
inductive PyRes (α : Type) where
  | raised
  | ok (v : α)
deriving Repr, DecidableEq

/-- The two data attributes read off the `c-wiz > div[jscontroller]` element
(`data-n-a-sg` and `data-n-a-ts`); `attributes.get` may return `None`. -/
structure DataAttrs where
  sig : Option String
  ts : Option String
deriving Repr, DecidableEq

/-- Oracle record for every external collaborator the core calls.
`httpGet u = none` models `requests.get(u)` raising (network error) or
`raise_for_status` throwing on a non-2xx response; `some body` is the 2xx
response text.  `findDataElement body` models
`HTMLParser(body).css_first("c-wiz > div[jscontroller]")`.  `postDecode`
models the signed batch-execute POST of `decode_url` together with its
response parsing: `none` is any network or parse failure.  The extraction
oracles mirror the call sites in google_news_fetcher.py. -/
structure Env where
  urlparse : String → ParsedUrl
  unescape : String → String
  unquote : String → String
  httpGet : String → Option String
  findDataElement : String → Option DataAttrs
  postDecode : Option String → Option String → String → Option String
  trafFetch : String → Option String
  trafExtract : String → Option String
  newspaperText : String → Option String
  pwContent : String → Option String
  pwExtract : String → PyRes (Option String)
  pwInnerText : String → Option String
  basicGet : String → Option String

/-- Split a character list at every character satisfying `p`, keeping empty
pieces, with `acc` the (reversed) current piece; the executable core of
Python's `str.split(sep)` and of splitting at whitespace. -/
def splitByAux (p : Char → Bool) : List Char → List Char → List (List Char)
  | [], acc => [acc.reverse]
  | c :: rest, acc =>
    if p c then acc.reverse :: splitByAux p rest []
    else splitByAux p rest (c :: acc)

/-- Python's `s.split(sep)` for a one-character separator: always a
non-empty list, empty pieces preserved. -/
def pySplit (s : String) (sep : Char) : List String :=
  (splitByAux (fun c => c = sep) s.toList []).map String.mk

/-- Join a list of strings with a separator. -/
def joinWith (sep : String) : List String → String
  | [] => ""
  | [t] => t
  | t :: rest => t ++ sep ++ joinWith sep rest

/-! ## GoogleDecoder (google_decoder.py) -/

/-- Result dictionary of `GoogleDecoder.get_base64_str`. -/
inductive B64Result where
  | ok (base64Str : String)
  | err (message : String)
deriving Repr, DecidableEq

/-- Result dictionary of `GoogleDecoder.get_decoding_params`. -/
inductive ParamsResult where
  | ok (sig : Option String) (ts : Option String) (base64Str : String)
  | err (message : String)
deriving Repr, DecidableEq

/-- Result dictionary of `GoogleDecoder.decode_url` and
`decode_google_news_url`. -/
inductive DecodeResult where
  | ok (decodedUrl : String)
  | err (message : String)
deriving Repr, DecidableEq

/-- Network-level events, used to trace which calls the code issues and in
which order.  `acquire` is a pass through the rate limiter
(`_apply_rate_limit`). -/
inductive NetEvent where
  | acquire
  | httpGet (url : String)
  | httpPost (url : String)
deriving Repr, DecidableEq

/-- The recognized route names checked as the second-to-last path segment
(google_decoder.py line 24). -/
def routeNames : List String := ["articles", "read"]

/-- `GoogleDecoder.get_base64_str` (google_decoder.py lines 17-28): parse the
URL, split its path on "/", and demand host `news.google.com`, more than one
split element, and a recognized route name second-to-last; the token is the
last split element.  The `except` branch is unreachable in this pure model. -/
def get_base64_str (env : Env) (sourceUrl : String) : B64Result :=
  let url := env.urlparse sourceUrl
  let path := pySplit url.path '/'
  if url.hostname = some "news.google.com" ∧ path.length > 1 ∧
      path.getD (path.length - 2) "" ∈ routeNames then
    B64Result.ok (path.getLastD "")
  else
    B64Result.err "Invalid Google News URL format."

/-- Primary parameter-fetch URL template (google_decoder.py line 34). -/
def articlesUrl (b64 : String) : String :=
  "https://news.google.com/articles/" ++ b64

/-- Secondary (RSS) parameter-fetch URL template (google_decoder.py
line 55). -/
def rssArticlesUrl (b64 : String) : String :=
  "https://news.google.com/rss/articles/" ++ b64

/-- `GoogleDecoder.get_decoding_params` (google_decoder.py lines 30-77),
with a trace of the GET requests it issues.  The RSS fallback is inside the
`except` handler: it runs only when the primary request raises (network
error or `raise_for_status` on non-2xx).  When the primary request succeeds
but the element is absent, the failure dictionary is returned directly from
inside the `try` block, so no fallback happens. -/
def get_decoding_params (env : Env) (b64 : String) :
    ParamsResult × List NetEvent :=
  match env.httpGet (articlesUrl b64) with
  | some body =>
    match env.findDataElement body with
    | none =>
      (ParamsResult.err "Failed to fetch data attributes with articles URL",
       [NetEvent.httpGet (articlesUrl b64)])
    | some a =>
      (ParamsResult.ok a.sig a.ts b64, [NetEvent.httpGet (articlesUrl b64)])
  | none =>
    match env.httpGet (rssArticlesUrl b64) with
    | some body =>
      match env.findDataElement body with
      | none =>
        (ParamsResult.err "Failed to fetch data attributes with RSS URL",
         [NetEvent.httpGet (articlesUrl b64),
          NetEvent.httpGet (rssArticlesUrl b64)])
      | some a =>
        (ParamsResult.ok a.sig a.ts b64,
         [NetEvent.httpGet (articlesUrl b64),
          NetEvent.httpGet (rssArticlesUrl b64)])
    | none =>
      (ParamsResult.err "Error in get_decoding_params: request failed",
       [NetEvent.httpGet (articlesUrl b64),
        NetEvent.httpGet (rssArticlesUrl b64)])

/-- The batch-execute endpoint of `decode_url` (google_decoder.py line 82). -/
def batchExecuteUrl : String :=
  "https://news.google.com/_/DotsSplashUi/data/batchexecute"

/-- `GoogleDecoder.decode_url` (google_decoder.py lines 79-106): one POST to
the batch-execute endpoint; the payload construction and response parsing are
folded into the `postDecode` oracle, whose `none` covers any network or parse
failure. -/
def decode_url (env : Env) (sig ts : Option String) (b64 : String) :
    DecodeResult × List NetEvent :=
  match env.postDecode sig ts b64 with
  | some u => (DecodeResult.ok u, [NetEvent.httpPost batchExecuteUrl])
  | none =>
    (DecodeResult.err "Error in decode_url: request or parse failed",
     [NetEvent.httpPost batchExecuteUrl])

/-- `GoogleDecoder.decode_google_news_url` (google_decoder.py lines
108-134), called by the fetcher without the optional `interval`, so no
post-decode sleep occurs. -/
def decode_google_news_url (env : Env) (sourceUrl : String) :
    DecodeResult × List NetEvent :=
  match get_base64_str env sourceUrl with
  | B64Result.err m => (DecodeResult.err m, [])
  | B64Result.ok b64 =>
    match get_decoding_params env b64 with
    | (ParamsResult.err m, evs) => (DecodeResult.err m, evs)
    | (ParamsResult.ok sig ts b, evs) =>
      let p := decode_url env sig ts b
      (p.1, evs ++ p.2)

/-! ## RateLimiter (google_news_fetcher.py lines 40-50)

The wall clock and `time.sleep` are modelled as explicit state: `now` is the
value `time.time()` would return, and sleeping for `d` advances `now` by
exactly `d` (all other processing takes zero model time).  Between calls an
arbitrary non-negative idle gap may elapse. -/

/-- Rate limiter state: the wall clock and `self.last_request_time`. -/
structure RLState where
  now : ℚ
  last : ℚ
deriving Repr, DecidableEq

/-- `GoogleNewsFetcher._apply_rate_limit`: read the clock, sleep for the
remainder of `delay` if the last request was too recent, then set
`last_request_time` to the (post-sleep) current time. -/
def apply_rate_limit (delay : ℚ) (s : RLState) : RLState :=
  let currentTime := s.now
  let timeSinceLast := currentTime - s.last
  let ret :=
    if timeSinceLast < delay then currentTime + (delay - timeSinceLast)
    else currentTime
  { now := ret, last := ret }

/-- Idle time passing between calls: the clock advances, `last_request_time`
does not. -/
def elapse (g : ℚ) (s : RLState) : RLState :=
  { s with now := s.now + g }

/-- A sequence of `_apply_rate_limit` calls: one call per element of `gaps`,
each preceded by that element's idle gap.  Returns the list of times at which
the calls return, plus the final state. -/
def runAcquires (delay : ℚ) (s : RLState) : List ℚ → List ℚ × RLState
  | [] => ([], s)
  | g :: rest =>
    let s1 := apply_rate_limit delay (elapse g s)
    let p := runAcquires delay s1 rest
    (s1.now :: p.1, p.2)

/-! ## String helpers for the fetcher's own text processing -/

/-- Whether `needle` is a leading run of `hay` (character-level prefix
test, used to model the literal parts of the code's regular expressions). -/
def leadsWith : List Char → List Char → Bool
  | [], _ => true
  | _ :: _, [] => false
  | a :: as, b :: bs => a = b && leadsWith as bs

/-- Whether `needle` occurs anywhere inside `hay`; models Python's
`needle in hay` substring test. -/
def containsSub (needle : List Char) : List Char → Bool
  | [] => leadsWith needle []
  | c :: rest => leadsWith needle (c :: rest) || containsSub needle rest

/-- Index of the first occurrence of `needle` in `hay`, if any. -/
def findSub (needle : List Char) : List Char → Option ℕ
  | [] => if leadsWith needle [] then some 0 else none
  | c :: rest =>
    if leadsWith needle (c :: rest) then some 0
    else (findSub needle rest).map (fun i => i + 1)

/-- One pass of `re.sub(open.*?close, " ", s, flags=DOTALL)` driven by a
fuel counter: each non-overlapping block from an occurrence of `openT` up to
the first following `closeT` is replaced by a single space. -/
def removeBlocksAux (openT closeT : List Char) : ℕ → List Char → List Char
  | 0, s => s
  | Nat.succ n, s =>
    match findSub openT s with
    | none => s
    | some i =>
      let pre := s.take i
      let after := s.drop (i + openT.length)
      match findSub closeT after with
      | none => s
      | some j =>
        pre ++ [' '] ++ removeBlocksAux openT closeT n
          (after.drop (j + closeT.length))

/-- `re.sub(r"<script.*?</script>", " ", s, flags=DOTALL)` and its `style`
twin (google_news_fetcher.py lines 184-185). -/
def removeBlocks (openT closeT : List Char) (s : List Char) : List Char :=
  removeBlocksAux openT closeT s.length s

/-- `re.sub(r"<[^>]+>", " ", s)` (google_news_fetcher.py line 186): each
angle-bracketed run with at least one non-`>` character inside becomes one
space. -/
def removeAngleAux : ℕ → List Char → List Char
  | 0, s => s
  | Nat.succ _, [] => []
  | Nat.succ n, c :: rest =>
    if c = '<' then
      match findSub ['>'] rest with
      | some j =>
        if 1 ≤ j then ' ' :: removeAngleAux n (rest.drop (j + 1))
        else c :: removeAngleAux n rest
      | none => c :: removeAngleAux n rest
    else c :: removeAngleAux n rest

/-- Driver for `removeAngleAux` with enough fuel. -/
def removeAngle (s : List Char) : List Char :=
  removeAngleAux s.length s

/-- `re.sub(r"\s+", " ", s).strip()`: collapse whitespace runs to single
spaces and trim the ends. -/
def collapseWs (s : String) : String :=
  joinWith " "
    (((splitByAux Char.isWhitespace s.toList []).map String.mk).filter
      (fun t => !(t == "")))

/-- `GoogleNewsFetcher.clean_text` (google_news_fetcher.py lines 34-38):
`html.unescape` (external, in `Env`) then whitespace collapse and strip. -/
def clean_text (env : Env) (text : String) : String :=
  collapseWs (env.unescape text)

/-! ## ContentExtractor (google_news_fetcher.py lines 72-194) -/

/-- Which extraction strategy produced a successful result.  The source
returns a bare string; the tag is instrumentation so theorems can speak
about which branch returned. -/
inductive Strategy where
  | trafilatura
  | newspaper
  | playwrightTraf
  | playwrightBody
  | basicHtml
deriving Repr, DecidableEq

/-- Which extraction stage was attempted (instrumentation for traces). -/
inductive Stage where
  | trafilatura
  | consent
  | newspaper
  | playwright
  | basicHtml
deriving Repr, DecidableEq

/-- Extraction trace events: `invoke u` marks a (possibly recursive) call of
`get_article_content` on `u`; `tried s` marks an attempted stage. -/
inductive XEvent where
  | invoke (url : String)
  | tried (s : Stage)
deriving Repr, DecidableEq

/-- The trafilatura attempt of `get_article_content` (google_news_fetcher.py
lines 109-120): fetch the page (`if downloaded:` is a truthiness test, so an
empty download is skipped), extract, and return early only when the text is
truthy and longer than 100 characters.  `some` is exactly the early-return
value; `none` means the attempt fell through (returned `None`, raised, or
was sub-threshold). -/
def trafAttempt (env : Env) (url : String) : Option String :=
  match env.trafFetch url with
  | none => none
  | some downloaded =>
    if downloaded = "" then none
    else
      match env.trafExtract downloaded with
      | none => none
      | some t => if 100 < t.length then some t else none

/-- The Newspaper3k attempt (google_news_fetcher.py lines 133-143): early
return only when `article.text` is truthy and longer than 100 characters. -/
def newspaperAttempt (env : Env) (url : String) : Option String :=
  match env.newspaperText url with
  | none => none
  | some t => if 100 < t.length then some t else none

/-- `GoogleNewsFetcher.get_article_content_with_playwright`
(google_news_fetcher.py lines 72-100): render the page (`none` when any
Playwright step raises), run trafilatura on the rendered HTML and return its
text when above the threshold, otherwise fall back to the page's rendered
body text, which is returned regardless of length.  A raised
`trafilatura.extract` aborts the whole attempt (outer `except`), unlike an
extract returning `None`, which still reaches the body-text fallback. -/
def get_article_content_with_playwright (env : Env) (url : String) :
    Option (String × Strategy) :=
  match env.pwContent url with
  | none => none
  | some content =>
    match env.pwExtract content with
    | PyRes.raised => none
    | PyRes.ok (some t) =>
      if 100 < t.length then some (t, Strategy.playwrightTraf)
      else
        match env.pwInnerText url with
        | none => none
        | some txt => some (txt, Strategy.playwrightBody)
    | PyRes.ok none =>
      match env.pwInnerText url with
      | none => none
      | some txt => some (txt, Strategy.playwrightBody)

/-- The leftmost match of `re.search(r"continue=([^&]+)", s)`: scanning left
to right, the first position where the literal `continue=` is followed by at
least one non-`&` character; the capture is the maximal run of non-`&`
characters there. -/
def findContinue : List Char → Option (List Char)
  | [] => none
  | c :: rest =>
    if leadsWith ("continue=".toList) (c :: rest) then
      let cap := ((c :: rest).drop 9).takeWhile (fun ch => ch ≠ '&')
      if cap.isEmpty then findContinue rest else some cap
    else findContinue rest

/-- `GoogleNewsFetcher._extract_actual_url_from_consent`
(google_news_fetcher.py lines 153-166): find the `continue` query parameter
and percent-decode it (`unquote` is the stdlib external in `Env`); `None`
when the parameter is absent. -/
def extract_actual_url_from_consent (env : Env) (consentUrl : String) :
    Option String :=
  match findContinue consentUrl.toList with
  | none => none
  | some cap => some (env.unquote (String.mk cap))

/-- `GoogleNewsFetcher._basic_html_extraction` (google_news_fetcher.py lines
168-194): GET the page (`none` models the request raising), strip
script/style blocks and remaining tags, collapse whitespace, then apply
`clean_text`. -/
def basic_html_extraction (env : Env) (url : String) : Option String :=
  match env.basicGet url with
  | none => none
  | some body =>
    let c1 := removeBlocks ("<script".toList) ("</script>".toList) body.toList
    let c2 := removeBlocks ("<style".toList) ("</style>".toList) c1
    let c3 := removeAngle c2
    some (clean_text env (collapseWs (String.mk c3)))

/-- The tail of `get_article_content` after the trafilatura attempt and the
consent branch have fallen through (google_news_fetcher.py lines 132-151):
Newspaper3k, then Playwright (whose result is kept only when truthy, so an
empty rendered body falls through), then the basic HTML fallback.  `pre` is
the trace accumulated so far. -/
def restAfterConsent (env : Env) (url : String) (pre : List XEvent) :
    Option (String × Strategy) × List XEvent :=
  match newspaperAttempt env url with
  | some t =>
    (some (t, Strategy.newspaper), pre ++ [XEvent.tried Stage.newspaper])
  | none =>
    let pre2 := pre ++ [XEvent.tried Stage.newspaper,
                        XEvent.tried Stage.playwright]
    match get_article_content_with_playwright env url with
    | some (t, s) =>
      if t = "" then
        ((basic_html_extraction env url).map (fun b => (b, Strategy.basicHtml)),
         pre2 ++ [XEvent.tried Stage.basicHtml])
      else (some (t, s), pre2)
    | none =>
      ((basic_html_extraction env url).map (fun b => (b, Strategy.basicHtml)),
       pre2 ++ [XEvent.tried Stage.basicHtml])

/-- `GoogleNewsFetcher.get_article_content` (google_news_fetcher.py lines
102-151), instrumented with the strategy tag of a success and a trace of
invocations and attempted stages.  The consent branch recurses with the
extracted URL only when the input URL contains `consent.google.com` and the
extracted URL is truthy and different from the input; the recursive call's
result is returned directly.  The source recursion is unbounded (a cycle of
two consent URLs pointing at each other would not terminate), so the model
takes a fuel parameter; fuel `0` yields `none` and is never reached for any
chain shorter than the fuel. -/
def get_article_content (env : Env) :
    ℕ → String → Option (String × Strategy) × List XEvent
  | 0, url => (none, [XEvent.invoke url])
  | Nat.succ fuel, url =>
    match trafAttempt env url with
    | some t =>
      (some (t, Strategy.trafilatura),
       [XEvent.invoke url, XEvent.tried Stage.trafilatura])
    | none =>
      let pre := [XEvent.invoke url, XEvent.tried Stage.trafilatura]
      if containsSub ("consent.google.com".toList) url.toList then
        match extract_actual_url_from_consent env url with
        | some actual =>
          if actual ≠ "" ∧ actual ≠ url then
            let p := get_article_content env fuel actual
            (p.1, pre ++ [XEvent.tried Stage.consent] ++ p.2)
          else restAfterConsent env url pre
        | none => restAfterConsent env url pre
      else restAfterConsent env url pre

/-! ## GoogleNewsFetcher pipeline (google_news_fetcher.py lines 52-70 and
196-269) -/

/-- `GoogleNewsFetcher.get_real_article_url` (google_news_fetcher.py lines
52-70): one `_apply_rate_limit` pass, then the full decode; on any decode
failure the original Google URL is returned as fallback.  The second
component is the trace of rate-limiter and network events. -/
def get_real_article_url (env : Env) (googleUrl : String) :
    String × List NetEvent :=
  let p := decode_google_news_url env googleUrl
  match p.1 with
  | DecodeResult.ok d => (d, NetEvent.acquire :: p.2)
  | DecodeResult.err _ => (googleUrl, NetEvent.acquire :: p.2)

/-- One feed entry as consumed by `fetch_articles`: `source`, `summary` and
`description` model `hasattr` checks on the feedparser entry. -/
structure Entry where
  title : String
  link : String
  source : Option String
  summary : Option String
  description : Option String
deriving Repr, DecidableEq

/-- The normalized article record built by the loop body of
`fetch_articles`. -/
structure Article where
  title : String
  url : String
  source : Option String
  content : String
deriving Repr, DecidableEq

/-- The summary/description fallback content of the loop body
(google_news_fetcher.py lines 242-247): the cleaned `summary` if present,
else the cleaned `description`, else the empty string. -/
def summaryFallback (env : Env) (entry : Entry) : String :=
  match entry.summary with
  | some s => clean_text env s
  | none =>
    match entry.description with
    | some d => clean_text env d
    | none => ""

/-- The body of the `for entry in feed.entries[:max_articles]` loop
(google_news_fetcher.py lines 231-267): resolve the real URL (any decode
failure or exception falls back to the entry's own link), seed `content`
from summary/description, then overwrite it with the full extracted content
when that is truthy. -/
def processEntry (env : Env) (fuel : ℕ) (entry : Entry) : Article :=
  let articleUrl := (get_real_article_url env entry.link).1
  let fullContent := ((get_article_content env fuel articleUrl).1).map Prod.fst
  let content :=
    match fullContent with
    | some t => if t = "" then summaryFallback env entry else t
    | none => summaryFallback env entry
  { title := clean_text env entry.title
    url := articleUrl
    source := entry.source
    content := content }

/-- The article-accumulating loop of `fetch_articles`: one appended record
per entry, in order. -/
def fetchLoop (env : Env) (fuel : ℕ) : List Entry → List Article
  | [] => []
  | e :: rest => processEntry env fuel e :: fetchLoop env fuel rest

/-- `GoogleNewsFetcher.fetch_articles` (google_news_fetcher.py lines
196-269) after the external feed fetch: process the first `maxArticles`
entries in feed order.  The initial `_apply_rate_limit` and the feed fetch
itself involve no per-entry control flow and are outside the claims. -/
def fetch_articles (env : Env) (fuel : ℕ) (entries : List Entry)
    (maxArticles : ℕ) : List Article :=
  fetchLoop env fuel (entries.take maxArticles)

/-! ## Claim formalization helpers -/

/-- Whether a trace event is an actual network call (GET or POST), as
opposed to a rate-limiter acquire. -/
def isNet : NetEvent → Bool
  | NetEvent.acquire => false
  | NetEvent.httpGet _ => true
  | NetEvent.httpPost _ => true

/-- Spacing property of a trace: no two network calls are adjacent, i.e. a
rate-limiter acquire occurs between any two consecutive network calls. -/
def spaced : List NetEvent → Bool
  | [] => true
  | [_] => true
  | a :: b :: rest => (!(isNet a && isNet b)) && spaced (b :: rest)

/-- The URLs on which `get_article_content` was invoked, in invocation
order, read off an extraction trace. -/
def invokeUrls (evs : List XEvent) : List String :=
  evs.filterMap (fun e =>
    match e with
    | XEvent.invoke u => some u
    | XEvent.tried _ => none)

/-- Guard conditions under which the consent branch of
`get_article_content` may recurse from `prev` into `next`: the input URL
contains the consent-wall marker, the continue parameter is present and
decodes to that URL, and the extracted URL differs from the input. -/
def consentStep (env : Env) (prev next : String) : Prop :=
  containsSub ("consent.google.com".toList) prev.toList = true ∧
  extract_actual_url_from_consent env prev = some next ∧
  next ≠ prev

/-- The shape condition of claim C4, written from the claim's words: the
hostname is the aggregator's domain, the split path has at least two
elements, and the second-to-last is a recognized route name. -/
def claimedTokenShape (env : Env) (url : String) : Prop :=
  (env.urlparse url).hostname = some "news.google.com" ∧
  2 ≤ (pySplit (env.urlparse url).path '/').length ∧
  (pySplit (env.urlparse url).path '/').getD
    ((pySplit (env.urlparse url).path '/').length - 2) "" ∈ routeNames

/-! ## Concrete environments for witnesses and counterexamples -/

/-- Baseline environment: every external call fails or is inert. -/
def idEnv : Env where
  urlparse := fun _ => { hostname := none, path := "" }
  unescape := id
  unquote := id
  httpGet := fun _ => none
  findDataElement := fun _ => none
  postDecode := fun _ _ _ => none
  trafFetch := fun _ => none
  trafExtract := fun _ => none
  newspaperText := fun _ => none
  pwContent := fun _ => none
  pwExtract := fun _ => PyRes.raised
  pwInnerText := fun _ => none
  basicGet := fun _ => none

/-- Environment whose Playwright rendering succeeds but whose trafilatura
pass over the rendered HTML returns `None`, leaving only a short rendered
body text. -/
def envShortBody : Env :=
  { idEnv with
    pwContent := fun _ => some "page html"
    pwExtract := fun _ => PyRes.ok none
    pwInnerText := fun _ => some "short stub" }

/-- A 101-character string, just above the extraction threshold. -/
def long101 : String := String.mk (List.replicate 101 'a')

/-- Environment where both the trafilatura strategy and the Newspaper3k
strategy would yield above-threshold text. -/
def envTrafOk : Env :=
  { idEnv with
    trafFetch := fun _ => some "doc"
    trafExtract := fun _ => some long101
    newspaperText := fun _ => some long101 }

/-- Environment whose primary parameter-fetch GET succeeds with markup
lacking the expected element (`findDataElement` is `none` everywhere). -/
def envNoElement : Env :=
  { idEnv with
    httpGet := fun u => if u = articlesUrl "TOK" then some "<html></html>" else none }

/-- Environment where the whole decode protocol succeeds on the primary
template: token extraction parses, the element is present, and the signed
POST decodes. -/
def envDecodeOk : Env :=
  { idEnv with
    urlparse := fun _ => { hostname := some "news.google.com", path := "/articles/TOK" }
    httpGet := fun _ => some "page"
    findDataElement := fun _ => some { sig := some "sg", ts := some "ts" }
    postDecode := fun _ _ _ => some "https://real.example/a" }

/-- Environment whose urlparse yields a valid aggregator shape, for the C4
witness. -/
def envShapeOk : Env :=
  { idEnv with
    urlparse := fun _ => { hostname := some "news.google.com", path := "/articles/TOKEN123" } }

/-- A consent URL whose continue parameter, once decoded, points back to the
consent URL itself. -/
def selfConsentUrl : String := "https://consent.google.com/m?continue=x"

/-- Environment whose `unquote` maps every capture to `selfConsentUrl`,
making the consent URL's continue parameter point at itself. -/
def envSelfConsent : Env :=
  { idEnv with unquote := fun _ => selfConsentUrl }

/-- Feed entry with a summary, for the C6 counterexample. -/
def entryWithSummary : Entry :=
  { title := "T"
    link := "http://x/y"
    source := none
    summary := some "A summary snippet"
    description := none }

/-- Feed entry with neither summary nor description. -/
def entryBare : Entry :=
  { title := "T"
    link := "u"
    source := none
    summary := none
    description := none }

/-! # Theorems -/

/-- The article loop is the map of the per-entry processing. -/
theorem fetchLoop_eq_map (env : Env) (fuel : ℕ) :
    ∀ l : List Entry, fetchLoop env fuel l = l.map (processEntry env fuel)
  | [] => rfl
  | e :: rest => by
    simp [fetchLoop, fetchLoop_eq_map env fuel rest]

/-- C1: for every query environment and every `maxArticles` bound,
`fetch_articles` returns exactly `min maxArticles feedEntryCount` article
records, and the output is the per-entry processing mapped over the first
`maxArticles` feed entries in feed order, so no entry within that prefix is
dropped however many per-entry decode or extraction oracles fail. -/
theorem c1_pipeline_count_and_order (env : Env) (fuel : ℕ)
    (entries : List Entry) (maxArticles : ℕ) :
    (fetch_articles env fuel entries maxArticles).length
        = min maxArticles entries.length ∧
    fetch_articles env fuel entries maxArticles
        = (entries.take maxArticles).map (processEntry env fuel) := by
  constructor
  · rw [fetch_articles, fetchLoop_eq_map, List.length_map, List.length_take]
  · rw [fetch_articles, fetchLoop_eq_map]

/-- C4: token extraction succeeds if and only if the parsed URL has hostname
`news.google.com`, a split path of at least two elements, and a recognized
route name second-to-last; on success the token is exactly the last path
segment, and on mismatch the failure is the invalid-format message. -/
theorem c4_token_shape_iff (env : Env) (url : String) :
    ((∃ tok, get_base64_str env url = B64Result.ok tok) ↔
      claimedTokenShape env url) ∧
    (∀ tok, get_base64_str env url = B64Result.ok tok →
      tok = (pySplit (env.urlparse url).path '/').getLastD "") ∧
    (¬ claimedTokenShape env url →
      get_base64_str env url = B64Result.err "Invalid Google News URL format.") := by
  have hunf : get_base64_str env url =
      (if (env.urlparse url).hostname = some "news.google.com" ∧
          (pySplit (env.urlparse url).path '/').length > 1 ∧
          (pySplit (env.urlparse url).path '/').getD
            ((pySplit (env.urlparse url).path '/').length - 2) "" ∈ routeNames then
        B64Result.ok ((pySplit (env.urlparse url).path '/').getLastD "")
      else B64Result.err "Invalid Google News URL format.") := rfl
  by_cases hc : (env.urlparse url).hostname = some "news.google.com" ∧
      (pySplit (env.urlparse url).path '/').length > 1 ∧
      (pySplit (env.urlparse url).path '/').getD
        ((pySplit (env.urlparse url).path '/').length - 2) "" ∈ routeNames
  · have hlen := hc.2.1
    have hshape : claimedTokenShape env url := ⟨hc.1, by omega, hc.2.2⟩
    rw [hunf, if_pos hc]
    refine ⟨⟨fun _ => hshape, fun _ => ⟨_, rfl⟩⟩, fun tok htok => ?_,
      fun hn => absurd hshape hn⟩
    injection htok with h
    exact h.symm
  · have hshape : ¬ claimedTokenShape env url := by
      intro hs
      have hlen := hs.2.1
      exact hc ⟨hs.1, by omega, hs.2.2⟩
    rw [hunf, if_neg hc]
    refine ⟨⟨fun hex => ?_, fun hs => absurd hs hshape⟩, fun tok htok => ?_,
      fun _ => rfl⟩
    · obtain ⟨tok, htok⟩ := hex
      cases htok
    · cases htok

/-- C4 witness: a URL parsing to hostname `news.google.com` with path
`/articles/TOKEN123` yields a token. -/
theorem c4_token_shape_iff_witness :
    ∃ tok, get_base64_str envShapeOk "u" = B64Result.ok tok :=
  (c4_token_shape_iff envShapeOk "u").1.mpr ⟨by decide, by decide, by decide⟩

/-- C5: `get_real_article_url` returns the decoded URL when the decode
protocol succeeds, and returns the original obfuscated URL itself as the
resolved URL when the decode fails at any step. -/
theorem c5_unresolved_fallback (env : Env) (url : String) :
    (∀ d, (decode_google_news_url env url).1 = DecodeResult.ok d →
      (get_real_article_url env url).1 = d) ∧
    (∀ m, (decode_google_news_url env url).1 = DecodeResult.err m →
      (get_real_article_url env url).1 = url) := by
  constructor
  · intro d hd
    simp [get_real_article_url, hd]
  · intro m hm
    simp [get_real_article_url, hm]

/-- C5 witness: with a fully failing decoder the original URL is returned,
applied at the baseline environment where token extraction fails. -/
theorem c5_unresolved_fallback_witness :
    (get_real_article_url idEnv "http://x/y").1 = "http://x/y" :=
  (c5_unresolved_fallback idEnv "http://x/y").2
    "Invalid Google News URL format." (by decide)

/-- After any `_apply_rate_limit` call, `last_request_time` equals the time
at which the call returns. -/
theorem apply_rate_limit_last (delay : ℚ) (s : RLState) :
    (apply_rate_limit delay s).last = (apply_rate_limit delay s).now := rfl

/-- If the previous call left `last = now`, the next call returns no earlier
than `delay` after the previous return, whatever idle gap elapsed. -/
theorem apply_rate_limit_step (delay g : ℚ) (s : RLState)
    (hinv : s.last = s.now) :
    s.now + delay ≤ (apply_rate_limit delay (elapse g s)).now := by
  simp only [apply_rate_limit, elapse]
  split
  next h =>
    rw [hinv] at h ⊢
    ring_nf
    linarith
  next h =>
    rw [hinv] at h
    push_neg at h
    linarith

/-- The final clock after a run of acquires is at least the starting clock
plus one `delay` per call, given the invariant `last = now`. -/
theorem runAcquires_final (delay : ℚ) :
    ∀ (gaps : List ℚ) (s : RLState), s.last = s.now →
      s.now + gaps.length * delay ≤ ((runAcquires delay s gaps).2).now
  | [], s, _ => by simp [runAcquires]
  | g :: rest, s, hinv => by
    have hstep := apply_rate_limit_step delay g s hinv
    have hrec := runAcquires_final delay rest
      (apply_rate_limit delay (elapse g s)) rfl
    simp only [runAcquires, List.length_cons]
    push_cast
    push_cast at hrec
    linarith

/-- The last return time of a nonempty run equals the final clock. -/
theorem runAcquires_getLast (delay : ℚ) :
    ∀ (gaps : List ℚ) (g : ℚ) (s : RLState),
      ((runAcquires delay s (g :: gaps)).1).getLastD 0
        = ((runAcquires delay s (g :: gaps)).2).now
  | [], g, s => by simp [runAcquires]
  | g2 :: rest, g, s => by
    have hrec := runAcquires_getLast delay rest g2
      (apply_rate_limit delay (elapse g s))
    simp only [runAcquires] at hrec ⊢
    rw [List.getLastD_cons] at hrec
    rw [List.getLastD_cons, List.getLastD_cons]
    exact hrec

/-- C9: acquiring N times (one call per element of `g :: gaps`, each
preceded by an arbitrary idle gap) ends with the Nth call returning at least
`(N-1) * delay` after the first call's return, and every call updates
`last_request_time` to the time at which it returns. -/
theorem c9_rate_limit_aggregate (delay g : ℚ) (gaps : List ℚ) (s0 : RLState) :
    ((runAcquires delay s0 (g :: gaps)).1).headD 0 + gaps.length * delay
        ≤ ((runAcquires delay s0 (g :: gaps)).1).getLastD 0 ∧
    ∀ s : RLState,
      (apply_rate_limit delay s).last = (apply_rate_limit delay s).now := by
  refine ⟨?_, fun s => rfl⟩
  cases gaps with
  | nil => simp [runAcquires]
  | cons g2 rest =>
    rw [runAcquires_getLast delay (g2 :: rest) g s0]
    have hfin := runAcquires_final delay (g2 :: rest)
      (apply_rate_limit delay (elapse g s0)) rfl
    simp only [runAcquires, List.headD_cons, List.length_cons]
    simp only [runAcquires, List.length_cons] at hfin
    push_cast
    push_cast at hfin
    linarith

/-- The two parameter-fetch URL templates are distinct strings for every
token. -/
theorem articles_ne_rss (b64 : String) : articlesUrl b64 ≠ rssArticlesUrl b64 := by
  intro h
  have hl := congrArg String.length h
  rw [articlesUrl, rssArticlesUrl, String.length_append, String.length_append] at hl
  have h1 : ("https://news.google.com/articles/" : String).length = 33 := rfl
  have h2 : ("https://news.google.com/rss/articles/" : String).length = 37 := rfl
  rw [h1, h2] at hl
  omega

/-- C3 counterexample: with a primary response whose markup lacks the
expected element, `get_decoding_params` returns the failure immediately;
the secondary (RSS) template is never requested, contradicting the claim
that any primary failure — including absent markup — triggers the retry and
that the params-unavailable failure implies both templates were tried. -/
theorem c3_counterexample_no_retry_on_missing_element :
    envNoElement.httpGet (articlesUrl "TOK") = some "<html></html>" ∧
    envNoElement.findDataElement "<html></html>" = none ∧
    get_decoding_params envNoElement "TOK" =
      (ParamsResult.err "Failed to fetch data attributes with articles URL",
       [NetEvent.httpGet (articlesUrl "TOK")]) ∧
    NetEvent.httpGet (rssArticlesUrl "TOK") ∉
      (get_decoding_params envNoElement "TOK").2 := by
  decide

/-- C3 amended: the secondary (RSS) template is attempted if and only if
the primary GET raises (network error or non-2xx); when the primary GET
succeeds but the expected markup element is absent, the failure is returned
at once after probing only the primary template. -/
theorem c3_amended_retry_only_on_raise (env : Env) (b64 : String) :
    (NetEvent.httpGet (rssArticlesUrl b64) ∈ (get_decoding_params env b64).2 ↔
      env.httpGet (articlesUrl b64) = none) ∧
    (∀ body, env.httpGet (articlesUrl b64) = some body →
      env.findDataElement body = none →
      get_decoding_params env b64 =
        (ParamsResult.err "Failed to fetch data attributes with articles URL",
         [NetEvent.httpGet (articlesUrl b64)])) := by
  rcases hp : env.httpGet (articlesUrl b64) with _ | body
  · constructor
    · simp only [get_decoding_params, hp]
      constructor
      · intro _
        trivial
      · intro _
        rcases hr : env.httpGet (rssArticlesUrl b64) with _ | body2
        · simp [hr]
        · rcases he : env.findDataElement body2 with _ | a <;> simp [hr, he]
    · intro body hb
      simp [hp] at hb
  · constructor
    · simp only [get_decoding_params, hp]
      rcases he : env.findDataElement body with _ | a <;>
        simp [he, (articles_ne_rss b64).symm]
    · intro body2 hb he2
      injection hb with hb
      subst hb
      simp [get_decoding_params, hp, he2]

/-- C3 amended witness: at the missing-element environment the amended
theorem yields the immediate single-probe failure. -/
theorem c3_amended_retry_only_on_raise_witness :
    get_decoding_params envNoElement "TOK" =
      (ParamsResult.err "Failed to fetch data attributes with articles URL",
       [NetEvent.httpGet (articlesUrl "TOK")]) :=
  (c3_amended_retry_only_on_raise envNoElement "TOK").2 "<html></html>"
    (by decide) (by decide)

/-- The trace of `get_decoding_params` is either the primary GET alone or
the primary GET followed by the RSS GET. -/
theorem params_trace_cases (env : Env) (b64 : String) :
    (get_decoding_params env b64).2 = [NetEvent.httpGet (articlesUrl b64)] ∨
    (get_decoding_params env b64).2 =
      [NetEvent.httpGet (articlesUrl b64),
       NetEvent.httpGet (rssArticlesUrl b64)] := by
  unfold get_decoding_params
  split
  · split
    · left; rfl
    · left; rfl
  · split
    · split
      · right; rfl
      · right; rfl
    · right; rfl

/-- Every event in a `get_decoding_params` trace is a network call. -/
theorem params_trace_net (env : Env) (b64 : String) :
    ∀ e ∈ (get_decoding_params env b64).2, isNet e = true := by
  intro e he
  rcases params_trace_cases env b64 with h | h <;> rw [h] at he <;> simp at he
  · subst he; rfl
  · rcases he with he | he <;> subst he <;> rfl

/-- `decode_url` always issues exactly its one POST. -/
theorem decode_url_trace (env : Env) (sig ts : Option String) (b : String) :
    (decode_url env sig ts b).2 = [NetEvent.httpPost batchExecuteUrl] := by
  unfold decode_url
  cases env.postDecode sig ts b <;> rfl

/-- The trace of `decode_google_news_url` is empty, a parameter-fetch
trace, or a parameter-fetch trace followed by the decode POST. -/
theorem decode_trace_form (env : Env) (url : String) :
    (decode_google_news_url env url).2 = [] ∨
    ∃ b64, (decode_google_news_url env url).2 = (get_decoding_params env b64).2 ∨
      (decode_google_news_url env url).2 =
        (get_decoding_params env b64).2 ++ [NetEvent.httpPost batchExecuteUrl] := by
  unfold decode_google_news_url
  split
  next m heq => left; rfl
  next b64 heq =>
    right
    refine ⟨b64, ?_⟩
    rcases hp : get_decoding_params env b64 with ⟨pr, evs⟩
    cases pr with
    | err m => left; rfl
    | ok sig ts b =>
      right
      simp [decode_url_trace]

/-- Every event in a `decode_google_news_url` trace is a network call: the
decode protocol itself performs no rate-limiter acquire. -/
theorem decode_trace_net (env : Env) (url : String) :
    ∀ e ∈ (decode_google_news_url env url).2, isNet e = true := by
  intro e he
  rcases decode_trace_form env url with h | ⟨b64, h | h⟩
  · rw [h] at he
    simp at he
  · rw [h] at he
    exact params_trace_net env b64 e he
  · rw [h] at he
    rcases List.mem_append.mp he with h2 | h2
    · exact params_trace_net env b64 e h2
    · simp at h2
      subst h2
      rfl

/-- C7 counterexample: a successful decode issues its parameter-fetch GET
and its signed POST back to back with no rate-limiter acquire between them,
so the trace of `get_real_article_url` violates the claimed spacing. -/
theorem c7_counterexample_adjacent_net_calls :
    spaced ((get_real_article_url envDecodeOk "gurl").2) = false := by
  decide

/-- C7 amended: exactly one rate-limiter acquire occurs per decode, at the
start of `get_real_article_url`; every subsequent event of the decode
protocol is an un-limited network call. -/
theorem c7_amended_single_acquire (env : Env) (url : String) :
    (get_real_article_url env url).2.head? = some NetEvent.acquire ∧
    ∀ e ∈ (get_real_article_url env url).2.tail, isNet e = true := by
  constructor
  · simp only [get_real_article_url]
    rcases h : (decode_google_news_url env url).1 with d | m <;> simp [h]
  · intro e he
    simp only [get_real_article_url] at he
    rcases h : (decode_google_news_url env url).1 with d | m <;> rw [h] at he <;>
      simp only [List.tail_cons] at he <;>
      exact decode_trace_net env url e he

/-- C7 amended witness: at the successful-decode environment the POST event
in the trace tail is a network call. -/
theorem c7_amended_single_acquire_witness :
    isNet (NetEvent.httpPost batchExecuteUrl) = true :=
  (c7_amended_single_acquire envDecodeOk "g").2
    (NetEvent.httpPost batchExecuteUrl) (by decide)

/-- A successful trafilatura attempt always exceeds the 100-character
threshold. -/
theorem trafAttempt_length {env : Env} {url t : String}
    (h : trafAttempt env url = some t) : 100 < t.length := by
  unfold trafAttempt at h
  split at h
  · cases h
  · split at h
    · cases h
    · split at h
      · cases h
      · split at h
        · injection h with h
          subst h
          assumption
        · cases h

/-- A successful Newspaper3k attempt always exceeds the 100-character
threshold. -/
theorem newspaperAttempt_length {env : Env} {url t : String}
    (h : newspaperAttempt env url = some t) : 100 < t.length := by
  unfold newspaperAttempt at h
  split at h
  · cases h
  · split at h
    · injection h with h
      subst h
      assumption
    · cases h

/-- A Playwright success is either its trafilatura pass (above threshold) or
the rendered body-text fallback (no length constraint). -/
theorem playwright_cases {env : Env} {url t : String} {s : Strategy}
    (h : get_article_content_with_playwright env url = some (t, s)) :
    (s = Strategy.playwrightTraf ∧ 100 < t.length) ∨
      s = Strategy.playwrightBody := by
  unfold get_article_content_with_playwright at h
  split at h
  · cases h
  · split at h
    · cases h
    · split at h
      · simp only [Option.some.injEq, Prod.mk.injEq] at h
        obtain ⟨h1, h2⟩ := h
        subst h1
        subst h2
        left
        exact ⟨rfl, by assumption⟩
      · split at h
        · cases h
        · simp only [Option.some.injEq, Prod.mk.injEq] at h
          right
          exact h.2.symm
    · split at h
      · cases h
      · simp only [Option.some.injEq, Prod.mk.injEq] at h
        right
        exact h.2.symm

/-- Any success produced by the post-consent tail whose strategy is one of
the threshold-guarded ones exceeds the 100-character threshold; Newspaper3k
successes are threshold-guarded, Playwright successes are covered by
`playwright_cases`, and the basic fallback never carries one of those
tags. -/
theorem restAfterConsent_length {env : Env} {url : String} {pre : List XEvent}
    {t : String} {s : Strategy}
    (h : (restAfterConsent env url pre).1 = some (t, s))
    (hs : s = Strategy.trafilatura ∨ s = Strategy.newspaper ∨
      s = Strategy.playwrightTraf) :
    100 < t.length := by
  unfold restAfterConsent at h
  split at h
  next t0 hnews =>
    simp only [Option.some.injEq, Prod.mk.injEq] at h
    obtain ⟨h1, h2⟩ := h
    subst h1
    subst h2
    exact newspaperAttempt_length hnews
  next hnews =>
    split at h
    next t0 s0 hpw =>
      split at h
      · rcases hb : basic_html_extraction env url with _ | b <;> rw [hb] at h
        · cases h
        · rcases hs with hs | hs | hs <;> subst hs <;> simp at h
      · simp only [Option.some.injEq, Prod.mk.injEq] at h
        obtain ⟨h1, h2⟩ := h
        subst h1
        subst h2
        rcases playwright_cases hpw with ⟨hp1, hp2⟩ | hp1
        · exact hp2
        · subst hp1
          rcases hs with hs | hs | hs <;> cases hs
    next hpw =>
      rcases hb : basic_html_extraction env url with _ | b <;> rw [hb] at h
      · cases h
      · rcases hs with hs | hs | hs <;> subst hs <;> simp at h

/-- C2 counterexample: a URL whose page renders but whose trafilatura pass
over the rendered HTML returns nothing is answered with the 10-character
rendered body text, a successful extraction far below the 100-character
threshold, contradicting the claim that sub-threshold text never becomes an
overall success. -/
theorem c2_counterexample_short_success :
    (get_article_content envShortBody 1 "http://e.com/a").1 =
      some ("short stub", Strategy.playwrightBody) ∧
    ("short stub").length < 100 := by
  constructor
  · rfl
  · decide

/-- C2 amended: the 100-character minimum is enforced only for the
threshold-guarded strategies — the trafilatura attempt, the Newspaper3k
attempt and Playwright's trafilatura pass; whenever `get_article_content`
succeeds with one of those strategy tags the text exceeds 100 characters,
while the Playwright body-text fallback and the basic HTML fallback may
return shorter text. -/
theorem c2_amended_threshold_guarded_strategies (env : Env) :
    ∀ (fuel : ℕ) (url t : String) (s : Strategy),
      (get_article_content env fuel url).1 = some (t, s) →
      s = Strategy.trafilatura ∨ s = Strategy.newspaper ∨
        s = Strategy.playwrightTraf →
      100 < t.length := by
  intro fuel
  induction fuel with
  | zero =>
    intro url t s h hs
    simp [get_article_content] at h
  | succ n ih =>
    intro url t s h hs
    rw [get_article_content] at h
    split at h
    next t0 htraf =>
      simp only [Option.some.injEq, Prod.mk.injEq] at h
      obtain ⟨h1, h2⟩ := h
      subst h1
      subst h2
      exact trafAttempt_length htraf
    next htraf =>
      split at h
      · split at h
        next actual hx =>
          split at h
          · exact ih actual t s h hs
          · exact restAfterConsent_length h hs
        next hx => exact restAfterConsent_length h hs
      · exact restAfterConsent_length h hs

/-- C2 amended witness: at an environment whose trafilatura attempt
succeeds with a 101-character text, the amended theorem applies. -/
theorem c2_amended_threshold_guarded_strategies_witness :
    100 < long101.length :=
  c2_amended_threshold_guarded_strategies envTrafOk 1 "u" long101
    Strategy.trafilatura rfl (Or.inl rfl)

/-- C8: strategy order is deterministic and fixed — whenever the
trafilatura attempt (strategy 1) and the Newspaper3k attempt (strategy 3)
would both yield above-threshold text, `get_article_content` returns the
trafilatura text at once, and its trace shows that no later stage was
attempted. -/
theorem c8_strategy_order (env : Env) (url : String) (fuel : ℕ)
    (d t1 t3 : String)
    (hf : env.trafFetch url = some d) (hd : d ≠ "")
    (he : env.trafExtract d = some t1) (hl : 100 < t1.length)
    (hn : env.newspaperText url = some t3) (hnl : 100 < t3.length) :
    get_article_content env (fuel + 1) url =
      (some (t1, Strategy.trafilatura),
       [XEvent.invoke url, XEvent.tried Stage.trafilatura]) := by
  have htraf : trafAttempt env url = some t1 := by
    simp [trafAttempt, hf, hd, he, hl]
  simp [get_article_content, htraf]

/-- C8 witness: at the environment where both strategies would return the
101-character text, the result is the trafilatura success with a
single-attempt trace. -/
theorem c8_strategy_order_witness :
    get_article_content envTrafOk (0 + 1) "u" =
      (some (long101, Strategy.trafilatura),
       [XEvent.invoke "u", XEvent.tried Stage.trafilatura]) :=
  c8_strategy_order envTrafOk "u" 0 "doc" long101 long101 rfl (by decide)
    rfl (by decide) rfl (by decide)

/-- Reading invocation URLs distributes over trace concatenation. -/
@[simp] theorem invokeUrls_append (a b : List XEvent) :
    invokeUrls (a ++ b) = invokeUrls a ++ invokeUrls b := by
  simp [invokeUrls, List.filterMap_append]

/-- An `invoke` event contributes its URL. -/
@[simp] theorem invokeUrls_cons_invoke (u : String) (l : List XEvent) :
    invokeUrls (XEvent.invoke u :: l) = u :: invokeUrls l := by
  simp [invokeUrls]

/-- A `tried` event contributes nothing. -/
@[simp] theorem invokeUrls_cons_tried (s : Stage) (l : List XEvent) :
    invokeUrls (XEvent.tried s :: l) = invokeUrls l := by
  simp [invokeUrls]

/-- The empty trace has no invocations. -/
@[simp] theorem invokeUrls_nil : invokeUrls [] = [] := by
  simp [invokeUrls]

/-- The post-consent tail of the extractor performs no further
invocations. -/
@[simp] theorem restAfterConsent_invokes (env : Env) (url : String)
    (pre : List XEvent) :
    invokeUrls (restAfterConsent env url pre).2 = invokeUrls pre := by
  unfold restAfterConsent
  split
  · simp
  · split
    · split
      · simp
      · simp
    · simp

/-- Every extraction trace starts with the invocation of its own URL. -/
theorem gac_trace_head (env : Env) :
    ∀ (fuel : ℕ) (url : String),
      ∃ l, invokeUrls (get_article_content env fuel url).2 = url :: l := by
  intro fuel url
  cases fuel with
  | zero => exact ⟨[], by simp [get_article_content]⟩
  | succ n =>
    rw [get_article_content]
    split
    · exact ⟨[], by simp⟩
    · split
      · split
        next actual hx =>
          split
          · exact ⟨invokeUrls (get_article_content env n actual).2, by simp⟩
          · exact ⟨[], by simp⟩
        next hx => exact ⟨[], by simp⟩
      · exact ⟨[], by simp⟩

/-- C10: the extractor's consent-wall unwrapping recurses only under its
guard — along any extraction trace, each recursive invocation goes from a
URL containing `consent.google.com` to the URL its continue parameter
decodes to, which is always different from the caller's URL; in particular
a consent URL whose continue parameter decodes back to itself triggers no
recursion at all. -/
theorem c10_consent_recursion_guard (env : Env) :
    ∀ (fuel : ℕ) (url : String),
      List.Chain' (consentStep env)
        (invokeUrls (get_article_content env fuel url).2) ∧
      (extract_actual_url_from_consent env url = some url →
        invokeUrls (get_article_content env fuel url).2 = [url]) := by
  intro fuel
  induction fuel with
  | zero =>
    intro url
    refine ⟨by simp [get_article_content], fun _ => by simp [get_article_content]⟩
  | succ n ih =>
    intro url
    rw [get_article_content]
    split
    · refine ⟨by simp, fun _ => by simp⟩
    · split
      next hc =>
        split
        next actual hx =>
          split
          next hg =>
            obtain ⟨l, hl⟩ := gac_trace_head env n url
            obtain ⟨l2, hl2⟩ := gac_trace_head env n actual
            constructor
            · have hchain := (ih actual).1
              rw [hl2] at hchain
              simp only [invokeUrls_append, invokeUrls_cons_invoke,
                invokeUrls_cons_tried, invokeUrls_nil]
              rw [hl2]
              simp only [List.nil_append, List.cons_append]
              exact List.Chain'.cons ⟨hc, hx, hg.2⟩ hchain
            · intro hself
              rw [hx] at hself
              injection hself with hself
              exact absurd hself hg.2
          next hg =>
            refine ⟨by simp, fun _ => by simp⟩
        next hx =>
          refine ⟨by simp, fun _ => by simp⟩
      next hc =>
        refine ⟨by simp, fun _ => by simp⟩

/-- C10 witness: at the self-pointing consent environment, whose continue
parameter decodes back to the consent URL itself, the extractor performs no
recursive invocation. -/
theorem c10_consent_recursion_guard_witness :
    invokeUrls (get_article_content envSelfConsent 5 selfConsentUrl).2 =
      [selfConsentUrl] :=
  (c10_consent_recursion_guard envSelfConsent 5 selfConsentUrl).2 rfl

/-- C6 counterexample: for a feed entry with a summary whose content
extraction ultimately fails, the emitted article's content is the cleaned
summary, not the empty string claimed. -/
theorem c6_counterexample_content_from_summary :
    (get_article_content idEnv 1
        ((get_real_article_url idEnv entryWithSummary.link).1)).1 = none ∧
    (processEntry idEnv 1 entryWithSummary).content = "A summary snippet" ∧
    "A summary snippet" ≠ "" := by
  refine ⟨rfl, ?_, by decide⟩
  rfl

/-- C6 amended: when content extraction ultimately fails the pipeline still
emits an article for the entry, whose content falls back to the entry's
cleaned summary (or description), and is the empty string exactly when the
entry carries neither; in every emitted article the title, url and content
fields are present, with content a string, never absent. -/
theorem c6_amended_summary_fallback (env : Env) (fuel : ℕ) (entry : Entry) :
    ((get_article_content env fuel
        ((get_real_article_url env entry.link).1)).1 = none →
      (processEntry env fuel entry).content = summaryFallback env entry) ∧
    ((get_article_content env fuel
        ((get_real_article_url env entry.link).1)).1 = none →
      entry.summary = none → entry.description = none →
      (processEntry env fuel entry).content = "") ∧
    (processEntry env fuel entry).title = clean_text env entry.title ∧
    (processEntry env fuel entry).url = (get_real_article_url env entry.link).1 := by
  refine ⟨?_, ?_, rfl, rfl⟩
  · intro h
    simp [processEntry, h]
  · intro h hs hd
    simp [processEntry, summaryFallback, h, hs, hd]

/-- C6 amended witness: an entry with neither summary nor description and a
failing extraction yields the empty content. -/
theorem c6_amended_summary_fallback_witness :
    (processEntry idEnv 1 entryBare).content = "" :=
  (c6_amended_summary_fallback idEnv 1 entryBare).2.1 rfl rfl rfl

end AgentSmith
